import Mathlib

/-!
# Verification of the `mybleak` BLE GATT transport

A shallow embedding of the BlueZ/D-Bus BLE transport in `mybleak.py` and
`base_ble.py`, together with proofs about the behaviour of its public
operations: device discovery, connection, packet reading, writing, power
management, disconnection and the `DeviceUuids` container.

The D-Bus world is modelled abstractly: `GetManagedObjects()` becomes an
explicit list of object entries (path plus the relevant interface property
dictionaries), notification delivery becomes an explicit list of signal
payloads, and a method call on the daemon that can fail becomes an explicit
`Except` result passed in as a parameter.  Python exceptions are modelled by
the `Except PyError` monad; Python `None` by `Option`.
-/

namespace Mybleak

/-- Python exceptions raised by the code under study: a generic `Exception`
or `BluetoothError` with its message, an `AttributeError` (attribute access
on an object that never received the attribute), a `ValueError` (from
`uuid.UUID`), and `StopIteration` (from `next()` on an empty generator). -/
inductive PyError where
  | exn (msg : String)
  | attributeError
  | valueError
  | stopIteration
deriving DecidableEq, Repr

/-- Python `str(x)` applied to an `Optional[str]`: `str(None) = "None"`. -/
def pyStr : Option String → String
  | none => "None"
  | some s => s

/-- Python truthiness of an `Optional[str]` value: `None` and the empty
string are falsy, every other string is truthy. -/
def pyTruthy : Option String → Bool
  | none => false
  | some s => s ≠ ""

/-- Python `a or b` on two `Optional[str]` values: returns `a` when `a` is
truthy, else `b` (used for `props.get("Name") or props.get("Alias")`). -/
def pyOr (a b : Option String) : Option String :=
  if pyTruthy a then a else b

/-! ## `uuid.UUID` (CPython standard library, as called by `DeviceUuids`)

`DeviceUuids.__init__` calls `UUID(str(x))` on each argument.  CPython's
`UUID.__init__` normalises the hex string by removing every occurrence of
`"urn:"` and `"uuid:"`, stripping leading/trailing curly braces, removing
dashes, and then requires exactly 32 hexadecimal digits, raising
`ValueError` otherwise. -/

/-- Worker for `removeAll`, structurally recursive on a fuel argument so
that concrete inputs evaluate inside the kernel; each step either consumes
one character or a whole occurrence of `pat`, so `s.length` fuel always
suffices. -/
def removeAllGo (pat : List Char) : Nat → List Char → List Char
  | _, [] => []
  | 0, s => s
  | fuel + 1, c :: rest =>
    if pat.isPrefixOf (c :: rest) then
      removeAllGo pat fuel (rest.drop (pat.length - 1))
    else
      c :: removeAllGo pat fuel rest

/-- Remove every non-overlapping occurrence of `pat` from `s`, scanning left
to right — the behaviour of Python's `str.replace(pat, "")`. -/
def removeAll (pat s : List Char) : List Char :=
  removeAllGo pat s.length s

/-- The two curly-brace characters stripped by `hex.strip(chars)` in
`uuid.UUID` (written via their code points). -/
def isBraceChar (c : Char) : Bool :=
  c = Char.ofNat 123 || c = Char.ofNat 125

/-- Python `s.strip(chars)`: drop the given characters from both ends. -/
def stripBraces (s : List Char) : List Char :=
  ((s.dropWhile isBraceChar).reverse.dropWhile isBraceChar).reverse

/-- Is `c` a hexadecimal digit (as accepted by `int(hex, 16)`)? -/
def isHexDigitChar (c : Char) : Bool :=
  c.isDigit || ('a' ≤ c && c ≤ 'f') || ('A' ≤ c && c ≤ 'F')

/-- The normalisation performed by `uuid.UUID.__init__` on its `hex`
argument before validation. -/
def pyUuidClean (s : String) : List Char :=
  let s1 := removeAll "uuid:".toList (removeAll "urn:".toList s.toList)
  (stripBraces s1).filter (fun c => c ≠ '-')

/-- `uuid.UUID(hex)`: returns the canonical 32-digit hex form, or raises
`ValueError` when the cleaned string is not 32 hexadecimal digits.  (The
exotic inputs `int(hex, 16)` additionally tolerates, such as internal
underscores or surrounding whitespace inside a 32-character string, are not
reachable from the UUID texts this repository handles.) -/
def pyUUID (s : String) : Except PyError (List Char) :=
  let h := pyUuidClean s
  if h.length = 32 && h.all isHexDigitChar then Except.ok h
  else Except.error PyError.valueError

/-- `DeviceUuids.__init__(service, write=None, notify=None)` from
`base_ble.py`: sets `self.service = UUID(str(service))`,
`self.write = UUID(str(write))`, `self.notify = UUID(str(notify))`.
The `write` and `notify` parameters default to `None`. -/
def DeviceUuids_init (service : String) (write notify : Option String) :
    Except PyError (List Char × List Char × List Char) := do
  let s ← pyUUID service
  let w ← pyUUID (pyStr write)
  let n ← pyUUID (pyStr notify)
  Except.ok (s, w, n)

/-! ## Discovery (`BleGatt.discover`, `BleGatt.is_bluetooth_on`)

`discover` polls `GetManagedObjects()` for the scan duration; each poll
iterates the object tree and, for every entry carrying the
`org.bluez.Device1` interface, reads `Address`, `Name` and `Alias`.  The
wall-clock loop is abstracted away: the model takes the flattened sequence
of `Device1` property sets observed across all poll iterations, which is
the only data the accumulation logic depends on. -/

/-- The `org.bluez.Device1` properties `discover` reads from one observed
object-tree entry: `props.get("Address")`, `props.get("Name")`,
`props.get("Alias")`. -/
structure DevProps where
  address : Option String
  name : Option String
  alia : Option String
deriving DecidableEq, Repr

/-- One entry of the `devicelist` built by `discover`:
`{"addr": str(addr), "name": str(name)}`. -/
structure DevData where
  addr : String
  name : String
deriving DecidableEq, Repr

/-- The dictionary `discover` builds for an observation:
`{"addr": str(addr), "name": str(props.get("Name") or props.get("Alias"))}`. -/
def mkDevData (p : DevProps) : DevData :=
  ⟨pyStr p.address, pyStr (pyOr p.name p.alia)⟩

/-- The accumulation loop of `discover`: for each observed property set,
append `data` to `devicelist` when `addr` is truthy and `data` (the whole
addr/name record) is not already present. -/
def discoverScan (obs : List DevProps) (devicelist : List DevData) : List DevData :=
  match obs with
  | [] => devicelist
  | p :: rest =>
    let data := mkDevData p
    let dl := if pyTruthy p.address = true ∧ data ∉ devicelist
              then devicelist ++ [data] else devicelist
    discoverScan rest dl

/-- `BleGatt.discover(scan_duration)`: raises
`BluetoothError("Bluetooth is off")` when `is_bluetooth_on()` is falsy,
otherwise runs the polling loop and returns the accumulated list.
`powered` is the adapter's `Powered` property read by `is_bluetooth_on`. -/
def discover (powered : Bool) (obs : List DevProps) : Except PyError (List DevData) :=
  if !powered then Except.error (PyError.exn "Bluetooth is off")
  else Except.ok (discoverScan obs [])

/-! ## Adapter lookup (`BleGatt._dbussetting`, run by `__init__`) -/

/-- One entry of `GetManagedObjects()` as seen by `_dbussetting`: the
object path and whether the `org.bluez.Adapter1` interface is among its
interfaces. -/
structure MgrObj where
  path : String
  hasAdapter : Bool
deriving DecidableEq, Repr

/-- The loop of `_dbussetting`: the first object path carrying
`org.bluez.Adapter1`, if any. -/
def findAdapterPath : List MgrObj → Option String
  | [] => none
  | o :: rest => if o.hasAdapter then some o.path else findAdapterPath rest

/-- `BleGatt._dbussetting` (called synchronously from `__init__`): scans the
object tree for an adapter; raises
`BluetoothError("Not Found Bluetooth adapter")` when `self.adapter_path`
ends up falsy (`None`, or an empty path). -/
def dbussetting (objs : List MgrObj) : Except PyError String :=
  match findAdapterPath objs with
  | none => Except.error (PyError.exn "Not Found Bluetooth adapter")
  | some p =>
    if p = "" then Except.error (PyError.exn "Not Found Bluetooth adapter")
    else Except.ok p

/-! ## Power management (`BleGatt.set_bluetooth_power`) -/

/-- `BleGatt.set_bluetooth_power(state)`: after `adapter.Set(..., state)` it
reads back `powered` and runs `if not powered or powered: return True else:
return False`.  `poweredAfter` is the read-back value, which need not equal
`state`. -/
def set_bluetooth_power (state : Bool) (poweredAfter : Bool) : Bool :=
  if !poweredAfter || poweredAfter then true else false

/-! ## Connection (`BleGatt.connect`, `BleGatt.Disconnect`)

`connect(device)` resolves the device path only when `device` is truthy;
it then calls `self.device.Connect()` unconditionally.  `self.device` only
exists after a previous truthy `connect` resolved it, so a falsy call on a
fresh object raises `AttributeError`.  The function body has no `return`
statement, so Python returns `None` — modelled as the `Option Bool`
component of the result, which is always `none`. -/

/-- One entry of `GetManagedObjects()` as read by `connect`:
`dev = ifaces.get("org.bluez.Device1")` must be truthy (present and
non-empty) and `dev.get("Address")` is compared against the argument. -/
structure MgrDev where
  path : String
  hasDev : Bool
  address : Option String
deriving DecidableEq, Repr

/-- The resolution loop of `connect`: the first object path whose truthy
`Device1` interface has `Address` equal to `device`. -/
def findDevice (mgr : List MgrDev) (device : String) : Option String :=
  match mgr with
  | [] => none
  | e :: rest =>
    if e.hasDev && e.address = some device then some e.path
    else findDevice rest device

/-- The `self.device_path` / `self.device` attributes a `BleGatt` object
carries between calls; `none` models the attribute never having been set
(fresh object, attribute access raises `AttributeError`). -/
structure ConnSt where
  device_path : Option String
  device : Option String
deriving DecidableEq, Repr

/-- The final `self.device.Connect()` call of `connect`: raises
`AttributeError` when `self.device` was never set; otherwise the D-Bus
`Connect` call is modelled as succeeding, and the body falls off the end,
returning Python `None`. -/
def connectCall (st : ConnSt) : Except PyError (ConnSt × Option Bool) :=
  match st.device with
  | none => Except.error PyError.attributeError
  | some _ => Except.ok (st, none)

/-- `BleGatt.connect(device)` from `mybleak.py`.  When `device` is truthy:
re-resolve `self.device_path` from the object tree, raise
`Exception("Устройство не найдено")` when `self.device_path` ends up falsy,
and set `self.device`.  In every case, finish with `self.device.Connect()`. -/
def connect (mgr : List MgrDev) (st : ConnSt) (device : Option String) :
    Except PyError (ConnSt × Option Bool) :=
  if pyTruthy device then
    match findDevice mgr (device.getD "") with
    | none => Except.error (PyError.exn "Устройство не найдено")
    | some p =>
      if p = "" then Except.error (PyError.exn "Устройство не найдено")
      else connectCall ⟨some p, some p⟩
  else connectCall st

/-- `BleGatt.Disconnect()` from `mybleak.py`: the single statement
`self.device.Disconnect()`.  `device` is `self.device` (set only by a
previous truthy `connect`); `daemon` is the outcome of the D-Bus
`Disconnect` call, which the method neither catches nor logs. -/
def Disconnect (device : Option String) (daemon : Except PyError Unit) :
    Except PyError Unit :=
  match device with
  | none => Except.error PyError.attributeError
  | some _ => daemon

/-! ## GATT endpoint resolution and `BleGatt.write` / `BleGatt.read_packet`

Both operations scan `GetManagedObjects()` for the
`org.bluez.GattService1` entry whose `UUID` matches
`str(self.uuids.service)` and whose `Device` is `self.device_path`, then
for the `org.bluez.GattCharacteristic1` entry whose `UUID` matches the
write (resp. notify) characteristic UUID and whose `Service` is the
resolved service path. -/

/-- `org.bluez.GattService1` properties: `UUID` and `Device`. -/
structure SvcProps where
  uuid : Option String
  device : Option String
deriving DecidableEq, Repr

/-- `org.bluez.GattCharacteristic1` properties: `UUID` and `Service`. -/
structure ChrProps where
  uuid : Option String
  service : Option String
deriving DecidableEq, Repr

/-- One entry of `GetManagedObjects()` as read by `write`/`read_packet`:
the object path and its `GattService1` / `GattCharacteristic1` interface
dictionaries when present (and truthy). -/
structure GattObj where
  path : String
  svc : Option SvcProps
  chr : Option ChrProps
deriving DecidableEq, Repr

/-- First object path whose truthy `GattService1` interface has the given
`UUID` and `Device` — the service-resolution loop of `write` and the
`next(...)` generator of `read_packet`. -/
def findServicePath (objs : List GattObj) (svcUuid devicePath : String) :
    Option String :=
  match objs with
  | [] => none
  | o :: rest =>
    match o.svc with
    | some s =>
      if s.uuid = some svcUuid && s.device = some devicePath then some o.path
      else findServicePath rest svcUuid devicePath
    | none => findServicePath rest svcUuid devicePath

/-- First object path whose truthy `GattCharacteristic1` interface has the
given `UUID` and `Service` — the characteristic-resolution loop of `write`
and the `next(...)` generator of `read_packet`. -/
def findCharPath (objs : List GattObj) (chrUuid servicePath : String) :
    Option String :=
  match objs with
  | [] => none
  | o :: rest =>
    match o.chr with
    | some c =>
      if c.uuid = some chrUuid && c.service = some servicePath then some o.path
      else findCharPath rest chrUuid servicePath
    | none => findCharPath rest chrUuid servicePath

/-- The fields of a `BleGatt` object that `write` and `read_packet` read:
the inherited `is_open` flag (set by `BaseBle.run`/`BaseBle.close`), the
current object tree, the stringified `self.uuids` service / write / notify
UUIDs, and `self.device_path`. -/
structure BleGattState where
  is_open : Bool
  objs : List GattObj
  serviceUuid : String
  writeUuid : String
  notifyUuid : String
  device_path : String
deriving DecidableEq, Repr

/-- `BaseBle.close()` from `base_ble.py`: its whole body is
`self.is_open = False`. -/
def close (st : BleGattState) : BleGattState :=
  { st with is_open := false }

/-- `BleGatt.write(data)` from `mybleak.py`: resolve the service path
(raising `Exception("Сервис не найден")` when it stays falsy), resolve the
characteristic path (raising `Exception("Характеристика не найдена")` when
it stays falsy), then `char.WriteValue(...)` (modelled as succeeding) and
`return True`.  No field other than the resolution inputs is consulted —
in particular not `is_open`. -/
def write (st : BleGattState) (data : List Nat) : Except PyError Bool :=
  match findServicePath st.objs st.serviceUuid st.device_path with
  | none => Except.error (PyError.exn "Сервис не найден")
  | some sp =>
    if sp = "" then Except.error (PyError.exn "Сервис не найден")
    else
      match findCharPath st.objs st.writeUuid sp with
      | none => Except.error (PyError.exn "Характеристика не найдена")
      | some cp =>
        if cp = "" then Except.error (PyError.exn "Характеристика не найдена")
        else Except.ok true

/-- The notification handler of `read_packet`: each `PropertiesChanged`
signal either carries a `Value` entry (`some bytes`) or not (`none`); the
handler stores the first delivered `Value` and quits the loop.  An overall
`none` result models a run in which no `Value`-bearing signal ever arrives
and `loop.run()` never returns. -/
def firstValue : List (Option (List Nat)) → Option (List Nat)
  | [] => none
  | some v :: _ => some v
  | none :: rest => firstValue rest

/-- `BleGatt.read_packet()` from `mybleak.py`: resolve the service and the
notify characteristic with `next(...)` (raising `StopIteration` when no
entry matches), subscribe to `PropertiesChanged` on the characteristic,
start notifications, block until the handler sees the first signal whose
`changed` dictionary contains `"Value"`, and return `self.received` — the
full bytes of that value, unmodified. -/
def read_packet (st : BleGattState) (signals : List (Option (List Nat))) :
    Except PyError (Option (List Nat)) :=
  match findServicePath st.objs st.serviceUuid st.device_path with
  | none => Except.error PyError.stopIteration
  | some sp =>
    match findCharPath st.objs st.notifyUuid sp with
    | none => Except.error PyError.stopIteration
    | some _ => Except.ok (firstValue signals)

/-- Modelled from the spec: the framing contract claimed for
`read_packet` — read 4 header bytes, decode them as an unsigned
little-endian length `L` (the spec leaves byte order open and suggests
little-endian), then read exactly `L` payload bytes and return the payload
only, header stripped.  Used solely to compare the code's behaviour with
the claimed one. -/
def readPacketSpecLE (stream : List Nat) : Option (List Nat) :=
  match stream with
  | b0 :: b1 :: b2 :: b3 :: rest =>
    let l := b0 + 256 * b1 + 65536 * b2 + 16777216 * b3
    if l ≤ rest.length then some (rest.take l) else none
  | _ => none

/-! ## Helper lemmas -/

/-- If no scanned object carries the adapter interface, the adapter-path
loop finds nothing. -/
theorem findAdapterPath_eq_none (objs : List MgrObj)
    (h : ∀ o ∈ objs, o.hasAdapter = false) : findAdapterPath objs = none := by
  induction objs with
  | nil => rfl
  | cons o rest ih =>
    have ho := h o (List.mem_cons_self o rest)
    simp only [findAdapterPath, ho, if_neg]
    exact ih (fun x hx => h x (List.mem_cons_of_mem o hx))

/-- The accumulation loop of `discover` only ever appends: everything in
the accumulator stays in the result. -/
theorem mem_discoverScan_of_mem_acc (obs : List DevProps)
    (acc : List DevData) (d : DevData) (h : d ∈ acc) :
    d ∈ discoverScan obs acc := by
  induction obs generalizing acc with
  | nil => simpa [discoverScan] using h
  | cons p rest ih =>
    simp only [discoverScan]
    split
    · exact ih _ (List.mem_append_left _ h)
    · exact ih _ h

/-- Every observation with a truthy address contributes its record to the
result of the accumulation loop. -/
theorem mem_discoverScan (obs : List DevProps) (acc : List DevData)
    (p : DevProps) (htr : pyTruthy p.address = true) (hmem : p ∈ obs) :
    mkDevData p ∈ discoverScan obs acc := by
  induction obs generalizing acc with
  | nil => cases hmem
  | cons q rest ih =>
    rcases List.mem_cons.mp hmem with heq | htail
    · subst heq
      simp only [discoverScan]
      by_cases hin : mkDevData p ∈ acc
      · rw [if_neg (by simp [hin])]
        exact mem_discoverScan_of_mem_acc _ _ _ hin
      · rw [if_pos ⟨htr, hin⟩]
        exact mem_discoverScan_of_mem_acc _ _ _
          (List.mem_append_right _ (List.mem_singleton.mpr rfl))
    · simp only [discoverScan]
      split
      · exact ih _ htail
      · exact ih _ htail

/-- The accumulation loop of `discover` preserves freedom from duplicate
records: a record is appended only when not already present. -/
theorem discoverScan_nodup (obs : List DevProps) (acc : List DevData)
    (h : acc.Nodup) : (discoverScan obs acc).Nodup := by
  induction obs generalizing acc with
  | nil => simpa [discoverScan] using h
  | cons p rest ih =>
    simp only [discoverScan]
    split
    · rename_i hc
      refine ih _ ?_
      simp only [List.nodup_append, List.nodup_cons, List.nodup_nil]
      exact ⟨h, ⟨by simp, trivial⟩, by
        intro a ha hb
        rw [List.mem_singleton.mp hb] at ha
        exact hc.2 ha⟩
    · exact ih _ h

/-- The handler loop of `read_packet` returns the first `Value`-bearing
signal, skipping any number of signals without a `Value` entry. -/
theorem firstValue_skip (k : Nat) (v : List Nat)
    (rest : List (Option (List Nat))) :
    firstValue (List.replicate k none ++ some v :: rest) = some v := by
  induction k with
  | zero => rfl
  | succ n ih => simpa [List.replicate_succ, firstValue] using ih

/-! ## The claims -/

/-- C7: `discover` raises `BluetoothError("Bluetooth is off")` when the
radio is powered off, and object construction (via `_dbussetting`) raises
`BluetoothError("Not Found Bluetooth adapter")` when no object in the
daemon's tree carries the adapter interface; both are ordinary synchronous
raises to the caller. -/
theorem discover_radio_off_and_ctor_no_adapter
    (obs : List DevProps) (objs : List MgrObj)
    (hno : ∀ o ∈ objs, o.hasAdapter = false) :
    discover false obs = Except.error (PyError.exn "Bluetooth is off") ∧
    dbussetting objs = Except.error (PyError.exn "Not Found Bluetooth adapter") := by
  refine ⟨rfl, ?_⟩
  unfold dbussetting
  rw [findAdapterPath_eq_none objs hno]

theorem discover_radio_off_and_ctor_no_adapter_witness :
    discover false [] = Except.error (PyError.exn "Bluetooth is off") ∧
    dbussetting [⟨"/org/bluez/hci0", false⟩] =
      Except.error (PyError.exn "Not Found Bluetooth adapter") :=
  discover_radio_off_and_ctor_no_adapter [] [⟨"/org/bluez/hci0", false⟩]
    (by intro o ho; simp at ho; simp [ho])

/-- C9: `set_bluetooth_power` returns `True` for every requested state and
every read-back power value — the tautological `if not powered or powered`
makes its result carry no information about the outcome. -/
theorem set_bluetooth_power_always_true (state poweredAfter : Bool) :
    set_bluetooth_power state poweredAfter = true := by
  cases poweredAfter <;> rfl

/-- C8 counterexample: `Disconnect()` on a transport whose device was
resolved propagates a daemon failure to the caller instead of swallowing
it, so it is not the case that it never raises. -/
theorem Disconnect_daemon_failure_cex :
    Disconnect (some "/org/bluez/hci0/dev_34_B7_DA_DB_F6_82")
      (Except.error (PyError.exn "org.bluez.Error.Failed")) =
    Except.error (PyError.exn "org.bluez.Error.Failed") := rfl

/-- C8 amended: `Disconnect()` forwards the call to the daemon and
propagates whatever the daemon raises; called before any device was ever
resolved it raises `AttributeError`.  Nothing is caught, logged or
swallowed, and it is not locally infallible. -/
theorem Disconnect_propagates (d : String) (daemon : Except PyError Unit) :
    Disconnect (some d) daemon = daemon ∧
    Disconnect none daemon = Except.error PyError.attributeError :=
  ⟨rfl, rfl⟩

/-- C3: whenever `connect` returns at all (rather than raising), the value
it returns is Python `None`, never a boolean — the body has no `return`
statement, contradicting its `-> bool` annotation and the inherited
docstring. -/
theorem connect_returns_none (mgr : List MgrDev) (st : ConnSt)
    (dev : Option String) (res : ConnSt × Option Bool)
    (h : connect mgr st dev = Except.ok res) : res.2 = none := by
  unfold connect at h
  split at h
  · split at h
    · cases h
    · split at h
      · cases h
      · unfold connectCall at h
        split at h
        · cases h
        · cases h; rfl
  · unfold connectCall at h
    split at h
    · cases h
    · cases h; rfl

theorem connect_returns_none_witness :
    ((⟨some "/org/bluez/hci0/dev_AA", some "/org/bluez/hci0/dev_AA"⟩,
      (none : Option Bool)) : ConnSt × Option Bool).2 = none :=
  connect_returns_none
    [⟨"/org/bluez/hci0/dev_AA", true, some "AA:BB:CC:DD:EE:FF"⟩]
    ⟨none, none⟩ (some "AA:BB:CC:DD:EE:FF")
    (⟨some "/org/bluez/hci0/dev_AA", some "/org/bluez/hci0/dev_AA"⟩, none)
    (by rfl)

/-- C10: a falsy `device` argument (`None` or the empty string) makes
`connect` skip address resolution entirely — the object tree `mgr` plays no
role — and go straight to `self.device.Connect()` on whatever a previous
call resolved; on a fresh transport (`self.device` never set) this raises
`AttributeError` instead of returning `False`. -/
theorem connect_falsy_skips_resolution (mgr : List MgrDev) (st : ConnSt)
    (dev : Option String) (h : pyTruthy dev = false) :
    (st.device = none →
      connect mgr st dev = Except.error PyError.attributeError) ∧
    (∀ d, st.device = some d → connect mgr st dev = Except.ok (st, none)) := by
  constructor
  · intro hd
    unfold connect
    rw [if_neg (by simp [h])]
    unfold connectCall
    rw [hd]
  · intro d hd
    unfold connect
    rw [if_neg (by simp [h])]
    unfold connectCall
    rw [hd]

theorem connect_falsy_skips_resolution_witness :
    connect [⟨"/org/bluez/hci0/dev_AA", true, some "AA:BB:CC:DD:EE:FF"⟩]
      ⟨none, none⟩ none = Except.error PyError.attributeError :=
  (connect_falsy_skips_resolution
    [⟨"/org/bluez/hci0/dev_AA", true, some "AA:BB:CC:DD:EE:FF"⟩]
    ⟨none, none⟩ none rfl).1 rfl

/-- A concrete daemon object tree exposing the service and the write and
notify characteristics of the device the source's demo script talks to. -/
def demoObjs : List GattObj :=
  [⟨"/org/bluez/hci0/dev_34_B7_DA_DB_F6_82/service000a",
    some ⟨some "0000abf0-0000-1000-8000-00805f9b34fb",
          some "/org/bluez/hci0/dev_34_B7_DA_DB_F6_82"⟩, none⟩,
   ⟨"/org/bluez/hci0/dev_34_B7_DA_DB_F6_82/service000a/char000b", none,
    some ⟨some "0000abf1-0000-1000-8000-00805f9b34fb",
          some "/org/bluez/hci0/dev_34_B7_DA_DB_F6_82/service000a"⟩⟩,
   ⟨"/org/bluez/hci0/dev_34_B7_DA_DB_F6_82/service000a/char000d", none,
    some ⟨some "0000abf4-0000-1000-8000-00805f9b34fb",
          some "/org/bluez/hci0/dev_34_B7_DA_DB_F6_82/service000a"⟩⟩]

/-- A connected transport over `demoObjs`, configured with the UUIDs the
source's demo script uses. -/
def demoState : BleGattState :=
  ⟨true, demoObjs,
   "0000abf0-0000-1000-8000-00805f9b34fb",
   "0000abf1-0000-1000-8000-00805f9b34fb",
   "0000abf4-0000-1000-8000-00805f9b34fb",
   "/org/bluez/hci0/dev_34_B7_DA_DB_F6_82"⟩

/-- A transport whose daemon object tree is empty, so that neither the
service nor any characteristic can be resolved. -/
def emptyTreeState : BleGattState :=
  ⟨true, [],
   "0000abf0-0000-1000-8000-00805f9b34fb",
   "0000abf1-0000-1000-8000-00805f9b34fb",
   "0000abf4-0000-1000-8000-00805f9b34fb",
   "/org/bluez/hci0/dev_34_B7_DA_DB_F6_82"⟩

/-- C1 counterexample: a notification whose bytes are the legal empty frame
`[0,0,0,0]` (4-byte length header `L = 0`, no payload, identical in either
byte order).  The claimed behaviour returns the payload only — the empty
byte string — but `read_packet` returns all four header bytes: it never
calls `recvall` and strips nothing. -/
theorem read_packet_no_header_strip_cex :
    read_packet demoState [some [0, 0, 0, 0]] = Except.ok (some [0, 0, 0, 0]) ∧
    readPacketSpecLE [0, 0, 0, 0] = some [] ∧
    some ([0, 0, 0, 0] : List Nat) ≠ some ([] : List Nat) :=
  ⟨rfl, rfl, by decide⟩

/-- C1 amended: `read_packet()` resolves the service and notify
characteristic, blocks until the first `PropertiesChanged` signal carrying
a `Value`, and returns that value whole — no 4-byte header is read via
`recvall` and nothing is stripped. -/
theorem read_packet_returns_first_notification (st : BleGattState)
    (sp cp : String)
    (hs : findServicePath st.objs st.serviceUuid st.device_path = some sp)
    (hc : findCharPath st.objs st.notifyUuid sp = some cp)
    (k : Nat) (v : List Nat) (rest : List (Option (List Nat))) :
    read_packet st (List.replicate k none ++ some v :: rest) =
      Except.ok (some v) := by
  unfold read_packet
  simp only [hs, hc]
  rw [firstValue_skip]

theorem read_packet_returns_first_notification_witness :
    read_packet demoState
      (List.replicate 1 none ++ some [36, 77, 62] :: []) =
      Except.ok (some [36, 77, 62]) :=
  read_packet_returns_first_notification demoState
    "/org/bluez/hci0/dev_34_B7_DA_DB_F6_82/service000a"
    "/org/bluez/hci0/dev_34_B7_DA_DB_F6_82/service000a/char000d"
    rfl rfl 1 [36, 77, 62] []

/-- C2 counterexample: the same address observed twice with two different
names yields two entries — deduplication keys on the whole addr/name
record, not on the address. -/
theorem discover_same_address_two_names_cex :
    discover true
      [⟨some "AA:BB:CC:DD:EE:FF", some "x", none⟩,
       ⟨some "AA:BB:CC:DD:EE:FF", some "y", none⟩] =
      Except.ok [⟨"AA:BB:CC:DD:EE:FF", "x"⟩, ⟨"AA:BB:CC:DD:EE:FF", "y"⟩] ∧
    List.countP (fun d => d.addr == "AA:BB:CC:DD:EE:FF")
      [(⟨"AA:BB:CC:DD:EE:FF", "x"⟩ : DevData), ⟨"AA:BB:CC:DD:EE:FF", "y"⟩] ≠ 1 :=
  ⟨rfl, by decide⟩

/-- C2 amended: `discover` deduplicates by the whole addr/name record:
the result never contains a duplicate record, and every observation with a
truthy address appears in it exactly once (so an address seen twice with
the same name yields one entry, while distinct names yield one entry
each). -/
theorem discover_dedup_by_record (obs : List DevProps) (p : DevProps)
    (l : List DevData) (htr : pyTruthy p.address = true) (hmem : p ∈ obs)
    (hrun : discover true obs = Except.ok l) :
    l.Nodup ∧ l.count (mkDevData p) = 1 := by
  have hl : discoverScan obs [] = l := by
    simpa [discover] using hrun
  subst hl
  have hnd := discoverScan_nodup obs [] List.nodup_nil
  exact ⟨hnd, List.count_eq_one_of_mem hnd (mem_discoverScan obs [] p htr hmem)⟩

theorem discover_dedup_by_record_witness :
    List.Nodup [(⟨"AA:BB:CC:DD:EE:FF", "x"⟩ : DevData)] ∧
    List.count (mkDevData ⟨some "AA:BB:CC:DD:EE:FF", some "x", none⟩)
      [(⟨"AA:BB:CC:DD:EE:FF", "x"⟩ : DevData)] = 1 :=
  discover_dedup_by_record [⟨some "AA:BB:CC:DD:EE:FF", some "x", none⟩]
    ⟨some "AA:BB:CC:DD:EE:FF", some "x", none⟩
    [⟨"AA:BB:CC:DD:EE:FF", "x"⟩] (by decide) (by simp) rfl

/-- C4 counterexample: with an empty object tree the write endpoint cannot
be resolved, and `write` raises `Exception("Сервис не найден")` instead of
returning `False`. -/
theorem write_unresolved_raises_cex :
    write emptyTreeState [36, 77, 60] =
      Except.error (PyError.exn "Сервис не найден") ∧
    write emptyTreeState [36, 77, 60] ≠ Except.ok false :=
  ⟨rfl, fun h => Except.noConfusion h⟩

/-- C4 amended: `write` either returns `True` (acknowledged submission) or
raises an exception; it never returns `False` — resolution failures are
raised, not reported through the boolean. -/
theorem write_true_or_raises (st : BleGattState) (data : List Nat) :
    write st data = Except.ok true ∨
    ∃ m, write st data = Except.error (PyError.exn m) := by
  unfold write
  split
  · exact Or.inr ⟨_, rfl⟩
  · split
    · exact Or.inr ⟨_, rfl⟩
    · split
      · exact Or.inr ⟨_, rfl⟩
      · split
        · exact Or.inr ⟨_, rfl⟩
        · exact Or.inl rfl

/-- C5: constructing `DeviceUuids` with `write` and `notify` omitted
raises `ValueError` — the constructor runs `UUID(str(None))`, i.e.
`UUID("None")`, which is not valid UUID text — even though the supplied
service UUID text on its own is valid.  This contradicts the declared
`Optional` fields and their `None` defaults. -/
theorem DeviceUuids_omitted_optionals_raise :
    DeviceUuids_init "0000abf0-0000-1000-8000-00805f9b34fb" none none =
      Except.error PyError.valueError ∧
    pyUUID "0000abf0-0000-1000-8000-00805f9b34fb" =
      Except.ok "0000abf000001000800000805f9b34fb".toList :=
  ⟨rfl, rfl⟩

/-- C6 counterexample: after `close()` (which only sets `is_open = False`),
a `write` on a transport whose endpoints resolve still succeeds — it is not
the case that every write on a closed transport fails. -/
theorem write_after_close_succeeds_cex :
    (close demoState).is_open = false ∧
    write (close demoState) [36, 77, 60] = Except.ok true :=
  ⟨rfl, rfl⟩

/-- C6 amended: `close()` marks the transport closed (`is_open = False`),
but no read or write path consults the flag: `write` behaves identically
before and after `close`, and `read_packet` does too. -/
theorem close_not_consulted_by_io (st : BleGattState) (data : List Nat)
    (signals : List (Option (List Nat))) :
    (close st).is_open = false ∧
    write (close st) data = write st data ∧
    read_packet (close st) signals = read_packet st signals :=
  ⟨rfl, rfl, rfl⟩

end Mybleak
